import Mathlib

/-!
Verification of the `multitool` HTTP client libraries (`tracker_lib` and
`llm_lib`): a shallow embedding of the request/response classification,
URL construction, pagination-header extraction, configuration loading and
the serde (de)serialization of the data models, together with theorems
settling the specification claims about them.

Modelling conventions:
* JSON values are the inductive `Json` below; JSON numbers are modelled as
  `Rat` (the claims never compute with float values, only with integers and
  with presence/absence of fields).
* The string-to-JSON parser of `serde_json` is external library code, so the
  places where the Rust code parses a response body string are parameterized
  by a `parseJson : String → Option Json` function; the derived
  `Deserialize`/`Serialize` impls of the repository types are modelled
  faithfully as `fromJson`/`toJson` functions over `Json`.
* An HTTP response is its status code, its header list and its body text.
  `reqwest`'s header lookup is case-insensitive, `response.text()` is
  modelled as always yielding the body.
* The process environment is a function `String → Option String`.
* Rust machine integers are `Nat` with the overflow bound made explicit in
  the string-parsing model (`u32`/`u64` parses fail above the bound).
-/

namespace Multitool

/-- JSON values (`serde_json::Value`), with numbers as `Rat`. -/
inductive Json where
  | null : Json
  | bool (b : Bool) : Json
  | num (q : Rat) : Json
  | str (s : String) : Json
  | arr (elems : List Json) : Json
  | obj (fields : List (String × Json)) : Json

/-- An HTTP response as the client code observes it: status code,
response headers and body text. -/
structure HttpResponse where
  status : Nat
  headers : List (String × String)
  body : String

/-- Character code with an ASCII upper-case letter folded to lower case. -/
def lowerCode (c : Char) : Nat :=
  let n := c.toNat
  if 65 ≤ n && n ≤ 90 then n + 32 else n

/-- ASCII-case-insensitive string equality (HTTP header names are ASCII). -/
def eqCaseInsensitive (a b : String) : Bool :=
  a.data.map lowerCode == b.data.map lowerCode

/-- `response.headers().get(name)`: `reqwest` header names are
case-insensitive, so the lookup compares names up to ASCII case. -/
def headerGet (headers : List (String × String)) (name : String) : Option String :=
  (headers.find? (fun p => eqCaseInsensitive p.1 name)).map (fun p => p.2)

/-- Digit run to number: `none` unless the character list is a nonempty
sequence of ASCII digits. -/
def digitsToNat? (cs : List Char) : Option Nat :=
  if cs.isEmpty then none
  else cs.foldl
    (fun acc c => acc.bind (fun n =>
      if c.isDigit then some (n * 10 + (c.toNat - Char.toNat '0')) else none))
    (some 0)

/-- Rust `str::parse` for an unsigned integer type with maximum value `max`
(`u32::MAX` or `u64::MAX`): an optional leading `+`, then one or more ASCII
digits, and the value must not overflow. -/
def rustParseUnsigned? (max : Nat) (s : String) : Option Nat :=
  let cs := match s.data with
    | '+' :: rest => rest
    | cs => cs
  (digitsToNat? cs).bind (fun n => if n ≤ max then some n else none)

def u32Max : Nat := 2 ^ 32 - 1

def u64Max : Nat := 2 ^ 64 - 1

/-- `StatusCode::is_success()`: the 2xx range. -/
def statusIsSuccess (status : Nat) : Bool :=
  200 ≤ status && status ≤ 299

/-! ## tracker_lib: error taxonomy, configuration, client -/

/-- `TrackerError` from `tracker_lib/src/api_client.rs` (reqwest and
serde_json error payloads are carried as message strings). -/
inductive TrackerError where
  | RequestFailed (msg : String) : TrackerError
  | JsonParseFailed (msg : String) : TrackerError
  | ApiError (status : Nat) (message : String) : TrackerError
  | AuthError (msg : String) : TrackerError
  | Unauthorized : TrackerError
  | Forbidden : TrackerError
  | NotFound (resource : String) : TrackerError
  | ConfigError (msg : String) : TrackerError
deriving DecidableEq

/-- Pagination metadata extracted from response headers. -/
structure PaginationMeta where
  total_pages : Option Nat
  total_count : Option Nat
deriving DecidableEq

/-- Localization language of the tracker API. -/
inductive Language where
  | Russian : Language
  | English : Language
deriving DecidableEq

def Language.as_str : Language → String
  | Language.Russian => "ru"
  | Language.English => "en"

/-- `TrackerConfig`. -/
structure TrackerConfig where
  base_url : String
  api_version : String
  oauth_token : String
  org_id : Option String
  language : Language
deriving DecidableEq

/-- `TrackerConfig::new`: defaults around the given OAuth token. -/
def TrackerConfig.new (oauth_token : String) : TrackerConfig where
  base_url := "https://st-api.yandex-team.ru"
  api_version := "v3"
  oauth_token := oauth_token
  org_id := none
  language := Language.Russian

/-- The tracker client: its configuration plus the proxy setting baked into
the underlying `reqwest::Client` (the only observable effect of the builder). -/
structure TrackerClient where
  config : TrackerConfig
  proxy : Option String
deriving DecidableEq

/-- `parse_work_proxy_url`: trim, reject empty, prefix the socks5 scheme. -/
def parse_work_proxy_url (work_proxy_value : String) : Except TrackerError String :=
  let trimmed_value := work_proxy_value.trim
  if trimmed_value.isEmpty then
    Except.error (TrackerError.ConfigError
      "Переменная окружения WORK_PROXY установлена, но пуста. Ожидается формат host:port")
  else
    Except.ok ("socks5://" ++ trimmed_value)

/-- `TrackerClient::new`: reads `WORK_PROXY` from the environment and builds
the client (proxy-URL validation and client building by `reqwest` are modelled
as succeeding; environment values are strings, hence always unicode). -/
def TrackerClient.new (env : String → Option String) (config : TrackerConfig) :
    Except TrackerError TrackerClient :=
  match env "WORK_PROXY" with
  | some work_proxy_value =>
      (parse_work_proxy_url work_proxy_value).map
        (fun proxy_url => { config := config, proxy := some proxy_url })
  | none => Except.ok { config := config, proxy := none }

/-- `TrackerClient::with_token`. -/
def TrackerClient.with_token (env : String → Option String) (oauth_token : String) :
    Except TrackerError TrackerClient :=
  TrackerClient.new env (TrackerConfig.new oauth_token)

/-- `TrackerClient::from_env`: requires the `TRACKER_TOKEN` environment
variable. -/
def TrackerClient.from_env (env : String → Option String) :
    Except TrackerError TrackerClient :=
  match env "TRACKER_TOKEN" with
  | some token => TrackerClient.with_token env token
  | none => Except.error (TrackerError.ConfigError
      "Переменная окружения TRACKER_TOKEN не установлена. Установите её командой: export TRACKER_TOKEN=your-token")

/-- All leading `/` characters removed (`str::trim_start_matches('/')`). -/
def trimStartSlashes (s : String) : String :=
  String.mk (s.data.dropWhile (fun c => c = '/'))

/-- `TrackerClient::build_url`: base URL, API version and the resource path
with leading slashes stripped, joined by `/`. -/
def TrackerClient.build_url (self : TrackerClient) (resource_path : String) : String :=
  self.config.base_url ++ "/" ++ self.config.api_version ++ "/"
    ++ trimStartSlashes resource_path

/-- The pagination-header extraction at the top of
`TrackerClient::handle_response`: parse `X-Total-Pages` and `X-Total-Count`
as `u32`, and report metadata exactly when at least one parsed. -/
def extract_pagination (headers : List (String × String)) : Option PaginationMeta :=
  let total_pages := (headerGet headers "X-Total-Pages").bind (rustParseUnsigned? u32Max)
  let total_count := (headerGet headers "X-Total-Count").bind (rustParseUnsigned? u32Max)
  if total_pages.isSome || total_count.isSome then
    some { total_pages := total_pages, total_count := total_count }
  else
    none

/-- `TrackerClient::handle_response`: non-2xx statuses map to the error
taxonomy (the body text is read for the error; `response.text()` is the body),
2xx decodes the body as JSON (`parseJson` is the `serde_json` parser) and
returns it with the pagination metadata. A body that fails to decode
surfaces the `reqwest` decode error, i.e. `RequestFailed`. -/
def TrackerClient.handle_response (self : TrackerClient)
    (parseJson : String → Option Json) (response : HttpResponse) :
    Except TrackerError (Json × Option PaginationMeta) :=
  let pagination_meta := extract_pagination response.headers
  if statusIsSuccess response.status then
    match parseJson response.body with
    | some json_value => Except.ok (json_value, pagination_meta)
    | none => Except.error (TrackerError.RequestFailed "error decoding response body")
  else
    let error_text := response.body
    if response.status = 401 then
      Except.error TrackerError.Unauthorized
    else if response.status = 403 then
      Except.error TrackerError.Forbidden
    else if response.status = 404 then
      Except.error (TrackerError.NotFound error_text)
    else
      Except.error (TrackerError.ApiError response.status error_text)

/-! ## tracker_lib: data models (`tracker_lib/src/models.rs`) -/

/-- User record: all fields optional (`self` renamed to `self_link`,
`passportUid` is u64). -/
structure User where
  self_link : Option String
  id : Option String
  display : Option String
  passport_uid : Option Nat
  cloud_uid : Option String
deriving DecidableEq

/-- Status record: all fields optional. -/
structure Status where
  self_link : Option String
  id : Option String
  key : Option String
  display : Option String
deriving DecidableEq

/-- Priority record: all fields optional. -/
structure Priority where
  self_link : Option String
  id : Option String
  key : Option String
  display : Option String
deriving DecidableEq

/-- Issue type record: all fields optional. -/
structure IssueType where
  self_link : Option String
  id : Option String
  key : Option String
  display : Option String
deriving DecidableEq

/-- Queue record: all fields optional. -/
structure Queue where
  self_link : Option String
  id : Option String
  key : Option String
  display : Option String
deriving DecidableEq

/-- Sprint record: all fields optional. -/
structure Sprint where
  self_link : Option String
  id : Option String
  display : Option String
deriving DecidableEq

/-- Project info record: all fields optional. -/
structure ProjectInfo where
  self_link : Option String
  id : Option String
  display : Option String
deriving DecidableEq

/-- Projects of an issue: optional primary, defaulted secondary list. -/
structure Project where
  primary : Option ProjectInfo
  secondary : List ProjectInfo
deriving DecidableEq

/-- Parent issue record: all fields optional. -/
structure ParentIssue where
  self_link : Option String
  id : Option String
  key : Option String
  display : Option String
deriving DecidableEq

/-- The tracker `Issue`: `key` and `summary` required, `votes`, `favorite`
and the collections `#[serde(default)]`, everything else optional. -/
structure Issue where
  self_link : Option String
  id : Option String
  key : String
  version : Option Nat
  last_comment_updated_at : Option String
  summary : String
  parent : Option ParentIssue
  aliases : List String
  updated_by : Option User
  description : Option String
  sprint : List Sprint
  issue_type : Option IssueType
  priority : Option Priority
  created_at : Option String
  followers : List User
  created_by : Option User
  votes : Nat
  assignee : Option User
  project : Option Project
  queue : Option Queue
  updated_at : Option String
  status : Option Status
  previous_status : Option Status
  favorite : Bool
  tags : List String
deriving DecidableEq

/-! ## llm_lib: error taxonomy, models, configuration, client -/

/-- `LlmError` from `llm_lib/src/error.rs`. -/
inductive LlmError where
  | RequestFailed (msg : String) : LlmError
  | JsonParseFailed (msg : String) : LlmError
  | ApiError (status : Nat) (message : String) : LlmError
  | AuthError : LlmError
  | RateLimitExceeded (retry_after : Option Nat) : LlmError
  | ConfigError (msg : String) : LlmError
  | ModelNotFound (msg : String) : LlmError
  | InvalidRequest (msg : String) : LlmError
deriving DecidableEq

/-- Message role (serialized lowercase). -/
inductive Role where
  | System : Role
  | User : Role
  | Assistant : Role
deriving DecidableEq

def Role.toStr : Role → String
  | Role.System => "system"
  | Role.User => "user"
  | Role.Assistant => "assistant"

def Role.fromJson : Json → Option Role
  | Json.str "system" => some Role.System
  | Json.str "user" => some Role.User
  | Json.str "assistant" => some Role.Assistant
  | _ => none

/-- A single conversation message. -/
structure Message where
  role : Role
  content : String
deriving DecidableEq

def Message.system (content : String) : Message where
  role := Role.System
  content := content

def Message.user (content : String) : Message where
  role := Role.User
  content := content

def Message.assistant (content : String) : Message where
  role := Role.Assistant
  content := content

def Message.toJson (m : Message) : Json :=
  Json.obj [("role", Json.str m.role.toStr), ("content", Json.str m.content)]

/-- `CompletionOptions`: every field optional, each carrying
`#[serde(skip_serializing_if = "Option::is_none")]` (f32 modelled as `Rat`,
u32 as `Nat`). -/
structure CompletionOptions where
  temperature : Option Rat
  max_tokens : Option Nat
  top_p : Option Rat
  frequency_penalty : Option Rat
  presence_penalty : Option Rat
  stop : Option (List String)
deriving DecidableEq

/-- `CompletionOptions::default()` / `CompletionOptions::new()`. -/
def CompletionOptions.default : CompletionOptions where
  temperature := none
  max_tokens := none
  top_p := none
  frequency_penalty := none
  presence_penalty := none
  stop := none

/-- Serde serialization of `CompletionOptions`: the fields, in declaration
order, each present exactly when its option is `Some` (the effect of
`skip_serializing_if = "Option::is_none"`). -/
def CompletionOptions.toJsonFields (o : CompletionOptions) : List (String × Json) :=
  (match o.temperature with
    | some t => [("temperature", Json.num t)]
    | none => [])
  ++ (match o.max_tokens with
    | some m => [("max_tokens", Json.num (m : Rat))]
    | none => [])
  ++ (match o.top_p with
    | some p => [("top_p", Json.num p)]
    | none => [])
  ++ (match o.frequency_penalty with
    | some p => [("frequency_penalty", Json.num p)]
    | none => [])
  ++ (match o.presence_penalty with
    | some p => [("presence_penalty", Json.num p)]
    | none => [])
  ++ (match o.stop with
    | some xs => [("stop", Json.arr (xs.map Json.str))]
    | none => [])

/-- `ChatCompletionRequest`: model, messages, and the options flattened into
the same JSON object (`#[serde(flatten)]`). -/
structure ChatCompletionRequest where
  model : String
  messages : List Message
  options : CompletionOptions
deriving DecidableEq

def ChatCompletionRequest.toJson (r : ChatCompletionRequest) : Json :=
  Json.obj ([("model", Json.str r.model),
    ("messages", Json.arr (r.messages.map Message.toJson))]
    ++ r.options.toJsonFields)

/-- Token usage accounting. -/
structure Usage where
  prompt_tokens : Nat
  completion_tokens : Nat
  total_tokens : Nat
deriving DecidableEq

/-- One choice of a completion response. -/
structure Choice where
  index : Nat
  message : Message
  finish_reason : Option String
deriving DecidableEq

/-- `ChatCompletionResponse`. -/
structure ChatCompletionResponse where
  id : String
  model : String
  choices : List Choice
  usage : Usage
  created : Nat
deriving DecidableEq

/-- `ChatCompletionResponse::content`: the first choice's message content. -/
def ChatCompletionResponse.content (r : ChatCompletionResponse) : Option String :=
  r.choices.head?.map (fun c => c.message.content)

/-- The `{error: {message, type, code}}` error envelope. -/
structure ErrorDetail where
  message : String
  error_type : Option String
  code : Option String
deriving DecidableEq

structure ErrorResponse where
  error : ErrorDetail
deriving DecidableEq

/-! ### Serde deserialization over `Json`

Field lookup in a JSON object, plus the standard semantics of the derived
`Deserialize` impls: a required field must be present and well-typed; an
`Option` field is `None` when missing or `null`; a `#[serde(default)]`
field falls back to the type's default when missing; unknown fields are
ignored. -/

def jsonField (fields : List (String × Json)) (name : String) : Option Json :=
  (fields.find? (fun p => p.1 == name)).map (fun p => p.2)

def Json.getObj? : Json → Option (List (String × Json))
  | Json.obj fields => some fields
  | _ => none

def deString : Json → Option String
  | Json.str s => some s
  | _ => none

def deBool : Json → Option Bool
  | Json.bool b => some b
  | _ => none

/-- Deserialize an unsigned integer bounded by `max` from a JSON number. -/
def deUnsigned (max : Nat) : Json → Option Nat
  | Json.num q =>
      if q.den = 1 && 0 ≤ q.num && q.num ≤ (max : Int) then some q.num.toNat else none
  | _ => none

/-- An `Option` payload: `null` maps to `None`, anything else must
deserialize. -/
def deOpt (de : Json → Option α) : Json → Option (Option α)
  | Json.null => some none
  | j => (de j).map some

/-- A required field. -/
def fieldRequired (fields : List (String × Json)) (name : String)
    (de : Json → Option α) : Option α :=
  (jsonField fields name).bind de

/-- An `Option<T>` field: missing means `None`. -/
def fieldOpt (fields : List (String × Json)) (name : String)
    (de : Json → Option α) : Option (Option α) :=
  match jsonField fields name with
  | none => some none
  | some j => deOpt de j

/-- A `#[serde(default)]` field with explicit default value. -/
def fieldDefault (fields : List (String × Json)) (name : String)
    (de : Json → Option α) (dflt : α) : Option α :=
  match jsonField fields name with
  | none => some dflt
  | some j => de j

/-- A `#[serde(default)] Vec<T>` field: missing means the empty list,
present must be an array of well-typed elements. -/
def fieldListDefault (fields : List (String × Json)) (name : String)
    (de : Json → Option α) : Option (List α) :=
  match jsonField fields name with
  | none => some []
  | some (Json.arr xs) => xs.mapM de
  | some _ => none

/-- A required `Vec<T>` field. -/
def fieldListRequired (fields : List (String × Json)) (name : String)
    (de : Json → Option α) : Option (List α) :=
  match jsonField fields name with
  | some (Json.arr xs) => xs.mapM de
  | _ => none

def Message.fromJson (j : Json) : Option Message := do
  let fields ← j.getObj?
  let role ← fieldRequired fields "role" Role.fromJson
  let content ← fieldRequired fields "content" deString
  pure { role := role, content := content }

def Usage.fromJson (j : Json) : Option Usage := do
  let fields ← j.getObj?
  let prompt_tokens ← fieldRequired fields "prompt_tokens" (deUnsigned u32Max)
  let completion_tokens ← fieldRequired fields "completion_tokens" (deUnsigned u32Max)
  let total_tokens ← fieldRequired fields "total_tokens" (deUnsigned u32Max)
  pure { prompt_tokens := prompt_tokens, completion_tokens := completion_tokens,
         total_tokens := total_tokens }

def Choice.fromJson (j : Json) : Option Choice := do
  let fields ← j.getObj?
  let index ← fieldRequired fields "index" (deUnsigned u32Max)
  let message ← fieldRequired fields "message" Message.fromJson
  let finish_reason ← fieldOpt fields "finish_reason" deString
  pure { index := index, message := message, finish_reason := finish_reason }

def ChatCompletionResponse.fromJson (j : Json) : Option ChatCompletionResponse := do
  let fields ← j.getObj?
  let id ← fieldRequired fields "id" deString
  let model ← fieldRequired fields "model" deString
  let choices ← fieldListRequired fields "choices" Choice.fromJson
  let usage ← fieldRequired fields "usage" Usage.fromJson
  let created ← fieldRequired fields "created" (deUnsigned u64Max)
  pure { id := id, model := model, choices := choices, usage := usage,
         created := created }

def ErrorDetail.fromJson (j : Json) : Option ErrorDetail := do
  let fields ← j.getObj?
  let message ← fieldRequired fields "message" deString
  let error_type ← fieldOpt fields "type" deString
  let code ← fieldOpt fields "code" deString
  pure { message := message, error_type := error_type, code := code }

def ErrorResponse.fromJson (j : Json) : Option ErrorResponse := do
  let fields ← j.getObj?
  let error ← fieldRequired fields "error" ErrorDetail.fromJson
  pure { error := error }

/-! ### tracker_lib model deserializers -/

def User.fromJson (j : Json) : Option User := do
  let fields ← j.getObj?
  let self_link ← fieldOpt fields "self" deString
  let id ← fieldOpt fields "id" deString
  let display ← fieldOpt fields "display" deString
  let passport_uid ← fieldOpt fields "passportUid" (deUnsigned u64Max)
  let cloud_uid ← fieldOpt fields "cloudUid" deString
  pure { self_link := self_link, id := id, display := display,
         passport_uid := passport_uid, cloud_uid := cloud_uid }

def Status.fromJson (j : Json) : Option Status := do
  let fields ← j.getObj?
  let self_link ← fieldOpt fields "self" deString
  let id ← fieldOpt fields "id" deString
  let key ← fieldOpt fields "key" deString
  let display ← fieldOpt fields "display" deString
  pure { self_link := self_link, id := id, key := key, display := display }

def Priority.fromJson (j : Json) : Option Priority := do
  let fields ← j.getObj?
  let self_link ← fieldOpt fields "self" deString
  let id ← fieldOpt fields "id" deString
  let key ← fieldOpt fields "key" deString
  let display ← fieldOpt fields "display" deString
  pure { self_link := self_link, id := id, key := key, display := display }

def IssueType.fromJson (j : Json) : Option IssueType := do
  let fields ← j.getObj?
  let self_link ← fieldOpt fields "self" deString
  let id ← fieldOpt fields "id" deString
  let key ← fieldOpt fields "key" deString
  let display ← fieldOpt fields "display" deString
  pure { self_link := self_link, id := id, key := key, display := display }

def Queue.fromJson (j : Json) : Option Queue := do
  let fields ← j.getObj?
  let self_link ← fieldOpt fields "self" deString
  let id ← fieldOpt fields "id" deString
  let key ← fieldOpt fields "key" deString
  let display ← fieldOpt fields "display" deString
  pure { self_link := self_link, id := id, key := key, display := display }

def Sprint.fromJson (j : Json) : Option Sprint := do
  let fields ← j.getObj?
  let self_link ← fieldOpt fields "self" deString
  let id ← fieldOpt fields "id" deString
  let display ← fieldOpt fields "display" deString
  pure { self_link := self_link, id := id, display := display }

def ProjectInfo.fromJson (j : Json) : Option ProjectInfo := do
  let fields ← j.getObj?
  let self_link ← fieldOpt fields "self" deString
  let id ← fieldOpt fields "id" deString
  let display ← fieldOpt fields "display" deString
  pure { self_link := self_link, id := id, display := display }

def Project.fromJson (j : Json) : Option Project := do
  let fields ← j.getObj?
  let primary ← fieldOpt fields "primary" ProjectInfo.fromJson
  let secondary ← fieldListDefault fields "secondary" ProjectInfo.fromJson
  pure { primary := primary, secondary := secondary }

def ParentIssue.fromJson (j : Json) : Option ParentIssue := do
  let fields ← j.getObj?
  let self_link ← fieldOpt fields "self" deString
  let id ← fieldOpt fields "id" deString
  let key ← fieldOpt fields "key" deString
  let display ← fieldOpt fields "display" deString
  pure { self_link := self_link, id := id, key := key, display := display }

/-- `Issue` fields `self`, `id`, `key`, `version`, `lastCommentUpdatedAt`
(helper of `Issue.fromJson`, split to keep elaboration tractable). -/
def Issue.fieldsPart1 (fields : List (String × Json)) :
    Option (Option String × Option String × String × Option Nat × Option String) := do
  let self_link ← fieldOpt fields "self" deString
  let id ← fieldOpt fields "id" deString
  let key ← fieldRequired fields "key" deString
  let version ← fieldOpt fields "version" (deUnsigned u32Max)
  let last_comment_updated_at ← fieldOpt fields "lastCommentUpdatedAt" deString
  pure (self_link, id, key, version, last_comment_updated_at)

/-- `Issue` fields `summary`, `parent`, `aliases`, `updatedBy`,
`description`. -/
def Issue.fieldsPart2 (fields : List (String × Json)) :
    Option (String × Option ParentIssue × List String × Option User × Option String) := do
  let summary ← fieldRequired fields "summary" deString
  let parent ← fieldOpt fields "parent" ParentIssue.fromJson
  let aliases ← fieldListDefault fields "aliases" deString
  let updated_by ← fieldOpt fields "updatedBy" User.fromJson
  let description ← fieldOpt fields "description" deString
  pure (summary, parent, aliases, updated_by, description)

/-- `Issue` fields `sprint`, `type`, `priority`, `createdAt`, `followers`. -/
def Issue.fieldsPart3 (fields : List (String × Json)) :
    Option (List Sprint × Option IssueType × Option Priority × Option String × List User) := do
  let sprint ← fieldListDefault fields "sprint" Sprint.fromJson
  let issue_type ← fieldOpt fields "type" IssueType.fromJson
  let priority ← fieldOpt fields "priority" Priority.fromJson
  let created_at ← fieldOpt fields "createdAt" deString
  let followers ← fieldListDefault fields "followers" User.fromJson
  pure (sprint, issue_type, priority, created_at, followers)

/-- `Issue` fields `createdBy`, `votes` (defaults to 0), `assignee`,
`project`, `queue`. -/
def Issue.fieldsPart4 (fields : List (String × Json)) :
    Option (Option User × Nat × Option User × Option Project × Option Queue) := do
  let created_by ← fieldOpt fields "createdBy" User.fromJson
  let votes ← fieldDefault fields "votes" (deUnsigned u32Max) 0
  let assignee ← fieldOpt fields "assignee" User.fromJson
  let project ← fieldOpt fields "project" Project.fromJson
  let queue ← fieldOpt fields "queue" Queue.fromJson
  pure (created_by, votes, assignee, project, queue)

/-- `Issue` fields `updatedAt`, `status`, `previousStatus`, `favorite`
(defaults to `false`), `tags` (defaults to `[]`). -/
def Issue.fieldsPart5 (fields : List (String × Json)) :
    Option (Option String × Option Status × Option Status × Bool × List String) := do
  let updated_at ← fieldOpt fields "updatedAt" deString
  let status ← fieldOpt fields "status" Status.fromJson
  let previous_status ← fieldOpt fields "previousStatus" Status.fromJson
  let favorite ← fieldDefault fields "favorite" deBool false
  let tags ← fieldListDefault fields "tags" deString
  pure (updated_at, status, previous_status, favorite, tags)

/-- Serde deserialization of `Issue`: `key`/`summary` required strings;
`votes` defaults to `0`, `favorite` to `false`, the collections to `[]`;
every remaining field is optional; field renames follow the
`#[serde(rename = ...)]` attributes. -/
def Issue.fromJson (j : Json) : Option Issue := do
  let fields ← j.getObj?
  let (self_link, id, key, version, last_comment_updated_at) ← Issue.fieldsPart1 fields
  let (summary, parent, aliases, updated_by, description) ← Issue.fieldsPart2 fields
  let (sprint, issue_type, priority, created_at, followers) ← Issue.fieldsPart3 fields
  let (created_by, votes, assignee, project, queue) ← Issue.fieldsPart4 fields
  let (updated_at, status, previous_status, favorite, tags) ← Issue.fieldsPart5 fields
  pure { self_link := self_link, id := id, key := key, version := version,
         last_comment_updated_at := last_comment_updated_at, summary := summary,
         parent := parent, aliases := aliases, updated_by := updated_by,
         description := description, sprint := sprint, issue_type := issue_type,
         priority := priority, created_at := created_at, followers := followers,
         created_by := created_by, votes := votes, assignee := assignee,
         project := project, queue := queue, updated_at := updated_at,
         status := status, previous_status := previous_status,
         favorite := favorite, tags := tags }

/-! ### llm_lib client -/

/-- `LlmConfig`. -/
structure LlmConfig where
  api_key : String
  base_url : String
  model : String
  timeout_secs : Nat
  site_url : Option String
  app_name : Option String
deriving DecidableEq

/-- `LlmConfig::new`: requires the `OPEN_ROUTER_TOKEN` environment
variable; all other fields take their defaults. -/
def LlmConfig.new (env : String → Option String) (model : String) :
    Except LlmError LlmConfig :=
  match env "OPEN_ROUTER_TOKEN" with
  | some api_key => Except.ok
      { api_key := api_key
        base_url := "https://openrouter.ai/api/v1"
        model := model
        timeout_secs := 120
        site_url := none
        app_name := none }
  | none => Except.error (LlmError.ConfigError
      "OPEN_ROUTER_TOKEN environment variable not set")

/-- The validation-and-request-building phase of
`LlmClient::chat_completion`, before anything is sent: an empty message
list is rejected with `InvalidRequest` and no request is built; otherwise
the `ChatCompletionRequest` that will be sent is returned. -/
def LlmClient.chat_completion_request (config : LlmConfig)
    (messages : List Message) (options : Option CompletionOptions) :
    Except LlmError ChatCompletionRequest :=
  if messages.isEmpty then
    Except.error (LlmError.InvalidRequest "Messages cannot be empty")
  else
    Except.ok { model := config.model, messages := messages,
                options := options.getD CompletionOptions.default }

/-- The response classification of `LlmClient::chat_completion`
(`parseJson` is the `serde_json` parser): exactly status 200 decodes the
body as a `ChatCompletionResponse` (a decode failure surfaces the
`reqwest` decode error, i.e. `RequestFailed`); 401 is `AuthError`; 429 is
`RateLimitExceeded` with the `retry-after` header parsed as `u64`; every
other status is `ApiError` with the message taken from the structured
error envelope when the body parses as one, else the raw body text. -/
def LlmClient.classify_response (parseJson : String → Option Json)
    (response : HttpResponse) : Except LlmError ChatCompletionResponse :=
  if response.status = 200 then
    match (parseJson response.body).bind ChatCompletionResponse.fromJson with
    | some completion => Except.ok completion
    | none => Except.error (LlmError.RequestFailed "error decoding response body")
  else if response.status = 401 then
    Except.error LlmError.AuthError
  else if response.status = 429 then
    let retry_after := (headerGet response.headers "retry-after").bind
      (rustParseUnsigned? u64Max)
    Except.error (LlmError.RateLimitExceeded retry_after)
  else
    let error_body := response.body
    match (parseJson error_body).bind ErrorResponse.fromJson with
    | some error_response =>
        Except.error (LlmError.ApiError response.status error_response.error.message)
    | none =>
        Except.error (LlmError.ApiError response.status error_body)

/-- `LlmClient::chat_completion` end to end, with the HTTP exchange itself
abstracted: validate and build the request, and when that succeeds classify
the response the send produced. The `response` argument is irrelevant
whenever validation fails, which models that nothing is sent. -/
def LlmClient.chat_completion (config : LlmConfig)
    (parseJson : String → Option Json) (messages : List Message)
    (options : Option CompletionOptions) (response : HttpResponse) :
    Except LlmError ChatCompletionResponse :=
  match LlmClient.chat_completion_request config messages options with
  | Except.error e => Except.error e
  | Except.ok _ => LlmClient.classify_response parseJson response

/-! ## Theorems settling the claims -/

/-- C6: for every resource path `p`, `TrackerClient::build_url` produces the
same full URL for `p` and for `"/" ++ p` (URL construction is invariant under
a leading slash), and the URL has the form
`base_url ++ "/" ++ api_version ++ "/" ++ path` with leading slashes stripped
from the path. -/
theorem c6_build_url_leading_slash_invariant (client : TrackerClient) (p : String) :
    client.build_url ("/" ++ p) = client.build_url p ∧
    client.build_url p =
      client.config.base_url ++ "/" ++ client.config.api_version ++ "/"
        ++ trimStartSlashes p := by
  refine ⟨?_, rfl⟩
  show client.config.base_url ++ "/" ++ client.config.api_version ++ "/"
      ++ trimStartSlashes ("/" ++ p) = _
  have hdata : ("/" ++ p).data = '/' :: p.data := by
    rw [String.data_append]
    rfl
  have htrim : trimStartSlashes ("/" ++ p) = trimStartSlashes p := by
    unfold trimStartSlashes
    rw [hdata]
    simp [List.dropWhile]
  rw [htrim]
  rfl

/-- C7: serializing a `CompletionOptions` with only `temperature` and
`max_tokens` set produces a JSON object with exactly those two keys, and no
serialized `CompletionOptions` ever contains a `null` field value (absent
fields are omitted, never serialized as `null`). -/
theorem c7_completion_options_omits_absent_fields (t : Rat) (m : Nat)
    (mdl : String) (msgs : List Message) :
    (({ temperature := some t, max_tokens := some m, top_p := none,
        frequency_penalty := none, presence_penalty := none, stop := none } :
        CompletionOptions).toJsonFields).map Prod.fst
      = ["temperature", "max_tokens"] ∧
    ((ChatCompletionRequest.toJson
        { model := mdl, messages := msgs,
          options := { temperature := some t, max_tokens := some m, top_p := none,
                       frequency_penalty := none, presence_penalty := none,
                       stop := none } }).getObj?).map (List.map Prod.fst)
      = some ["model", "messages", "temperature", "max_tokens"] ∧
    ∀ (o : CompletionOptions) (k : String), (k, Json.null) ∉ o.toJsonFields := by
  refine ⟨rfl, rfl, ?_⟩
  intro o k h
  rcases o with ⟨t?, m?, p?, f?, pr?, s?⟩
  rcases t? <;> rcases m? <;> rcases p? <;> rcases f? <;> rcases pr? <;> rcases s? <;>
    simp [CompletionOptions.toJsonFields] at h

/-- C8: deserializing the minimal issue JSON object with only `key` and
`summary` succeeds and yields `votes = 0`, `favorite = false`, an empty tag
list and no status. -/
theorem c8_minimal_issue_deserialization :
    ∃ issue : Issue,
      Issue.fromJson
          (Json.obj [("key", Json.str "TEST-1"), ("summary", Json.str "Minimal task")])
        = some issue
      ∧ issue.key = "TEST-1" ∧ issue.summary = "Minimal task"
      ∧ issue.votes = 0 ∧ issue.favorite = false
      ∧ issue.tags = [] ∧ issue.status = none := by
  refine ⟨{ self_link := none, id := none, key := "TEST-1", version := none,
            last_comment_updated_at := none, summary := "Minimal task",
            parent := none, aliases := [], updated_by := none, description := none,
            sprint := [], issue_type := none, priority := none, created_at := none,
            followers := [], created_by := none, votes := 0, assignee := none,
            project := none, queue := none, updated_at := none, status := none,
            previous_status := none, favorite := false, tags := [] },
          ?_, rfl, rfl, rfl, rfl, rfl, rfl⟩
  rfl

/-- C9: with the required credential environment variable unset, client
construction from the environment fails with the configuration-error variant
and no client value is produced: `TrackerClient::from_env` without
`TRACKER_TOKEN`, and `LlmConfig::new` without `OPEN_ROUTER_TOKEN`. -/
theorem c9_missing_credential_is_config_error
    (env1 env2 : String → Option String) (model : String)
    (h1 : env1 "TRACKER_TOKEN" = none) (h2 : env2 "OPEN_ROUTER_TOKEN" = none) :
    TrackerClient.from_env env1 = Except.error (TrackerError.ConfigError
      "Переменная окружения TRACKER_TOKEN не установлена. Установите её командой: export TRACKER_TOKEN=your-token")
    ∧ LlmConfig.new env2 model = Except.error (LlmError.ConfigError
      "OPEN_ROUTER_TOKEN environment variable not set") := by
  constructor
  · simp [TrackerClient.from_env, h1]
  · simp [LlmConfig.new, h2]

/-- C9 witness: the empty environment. -/
theorem c9_missing_credential_is_config_error_witness :
    ((fun _ => none) : String → Option String) "TRACKER_TOKEN" = none ∧
    TrackerClient.from_env (fun _ => none) = Except.error (TrackerError.ConfigError
      "Переменная окружения TRACKER_TOKEN не установлена. Установите её командой: export TRACKER_TOKEN=your-token") ∧
    LlmConfig.new (fun _ => none) "openai/gpt-4" = Except.error (LlmError.ConfigError
      "OPEN_ROUTER_TOKEN environment variable not set") :=
  ⟨rfl,
    (c9_missing_credential_is_config_error (fun _ => none) (fun _ => none)
      "openai/gpt-4" rfl rfl).1,
    (c9_missing_credential_is_config_error (fun _ => none) (fun _ => none)
      "openai/gpt-4" rfl rfl).2⟩

/-- C10: `LlmClient::chat_completion` rejects the empty message list with
`InvalidRequest ("Messages cannot be empty")` whatever response the network
could have produced (nothing is sent), and with a non-empty message list it
builds the request and proceeds to send it and classify the response. -/
theorem c10_empty_messages_invalid_request (config : LlmConfig)
    (parseJson : String → Option Json) (options : Option CompletionOptions)
    (response : HttpResponse) (messages : List Message) (hm : messages ≠ []) :
    LlmClient.chat_completion config parseJson [] options response
      = Except.error (LlmError.InvalidRequest "Messages cannot be empty")
    ∧ LlmClient.chat_completion_request config [] options
      = Except.error (LlmError.InvalidRequest "Messages cannot be empty")
    ∧ LlmClient.chat_completion_request config messages options
      = Except.ok { model := config.model, messages := messages,
                    options := options.getD CompletionOptions.default }
    ∧ LlmClient.chat_completion config parseJson messages options response
      = LlmClient.classify_response parseJson response := by
  have hne : messages.isEmpty = false := by
    cases messages with
    | nil => exact absurd rfl hm
    | cons a l => rfl
  refine ⟨rfl, rfl, ?_, ?_⟩
  · simp [LlmClient.chat_completion_request, hne]
  · simp [LlmClient.chat_completion, LlmClient.chat_completion_request, hne]

/-- C10 witness: a singleton user message. -/
theorem c10_empty_messages_invalid_request_witness :
    ([Message.user "hi"] : List Message) ≠ [] ∧
    LlmClient.chat_completion
      { api_key := "k", base_url := "https://openrouter.ai/api/v1",
        model := "m", timeout_secs := 120, site_url := none, app_name := none }
      (fun _ => none) [] none ⟨200, [], ""⟩
      = Except.error (LlmError.InvalidRequest "Messages cannot be empty") ∧
    LlmClient.chat_completion_request
      { api_key := "k", base_url := "https://openrouter.ai/api/v1",
        model := "m", timeout_secs := 120, site_url := none, app_name := none }
      [Message.user "hi"] none
      = Except.ok { model := "m", messages := [Message.user "hi"],
                    options := CompletionOptions.default } :=
  ⟨by simp,
    (c10_empty_messages_invalid_request
      { api_key := "k", base_url := "https://openrouter.ai/api/v1",
        model := "m", timeout_secs := 120, site_url := none, app_name := none }
      (fun _ => none) none ⟨200, [], ""⟩ [Message.user "hi"] (by simp)).1,
    (c10_empty_messages_invalid_request
      { api_key := "k", base_url := "https://openrouter.ai/api/v1",
        model := "m", timeout_secs := 120, site_url := none, app_name := none }
      (fun _ => none) none ⟨200, [], ""⟩ [Message.user "hi"] (by simp)).2.2.1⟩

/-- Helper: a bound option is `some` exactly when the source is `some` and
the continuation succeeds on it. -/
theorem optionBind_isSome_iff (o : Option String) (f : String → Option Nat) :
    (o.bind f).isSome = true ↔ ∃ s, o = some s ∧ (f s).isSome = true := by
  cases o <;> simp

/-- C2: a response with status 401 always yields `Unauthorized` from the
tracker client's `handle_response` and `AuthError` from the LLM client's
`chat_completion`, regardless of the response body (and headers). -/
theorem c2_status_401_auth_error (client : TrackerClient)
    (parseJson : String → Option Json) (r : HttpResponse) (h : r.status = 401)
    (config : LlmConfig) (parseJson2 : String → Option Json)
    (messages : List Message) (options : Option CompletionOptions)
    (r2 : HttpResponse) (hm : messages ≠ []) (h2 : r2.status = 401) :
    client.handle_response parseJson r = Except.error TrackerError.Unauthorized
    ∧ LlmClient.chat_completion config parseJson2 messages options r2
      = Except.error LlmError.AuthError := by
  have hne : messages.isEmpty = false := by
    cases messages with
    | nil => exact absurd rfl hm
    | cons a l => rfl
  constructor
  · simp [TrackerClient.handle_response, statusIsSuccess, h]
  · simp [LlmClient.chat_completion, LlmClient.chat_completion_request, hne,
      LlmClient.classify_response, h2]

/-- C2 witness: status 401 with an arbitrary body and headers. -/
theorem c2_status_401_auth_error_witness :
    (⟨401, [("X-Total-Count", "7")], "some body"⟩ : HttpResponse).status = 401 ∧
    TrackerClient.handle_response ⟨TrackerConfig.new "tok", none⟩
      (fun _ => some Json.null) ⟨401, [("X-Total-Count", "7")], "some body"⟩
      = Except.error TrackerError.Unauthorized ∧
    LlmClient.chat_completion
      { api_key := "k", base_url := "https://openrouter.ai/api/v1",
        model := "m", timeout_secs := 120, site_url := none, app_name := none }
      (fun _ => some Json.null) [Message.user "hi"] none ⟨401, [], "other body"⟩
      = Except.error LlmError.AuthError :=
  ⟨rfl,
    (c2_status_401_auth_error ⟨TrackerConfig.new "tok", none⟩ (fun _ => some Json.null)
      ⟨401, [("X-Total-Count", "7")], "some body"⟩ rfl
      { api_key := "k", base_url := "https://openrouter.ai/api/v1",
        model := "m", timeout_secs := 120, site_url := none, app_name := none }
      (fun _ => some Json.null) [Message.user "hi"] none ⟨401, [], "other body"⟩
      (by simp) rfl).1,
    (c2_status_401_auth_error ⟨TrackerConfig.new "tok", none⟩ (fun _ => some Json.null)
      ⟨401, [("X-Total-Count", "7")], "some body"⟩ rfl
      { api_key := "k", base_url := "https://openrouter.ai/api/v1",
        model := "m", timeout_secs := 120, site_url := none, app_name := none }
      (fun _ => some Json.null) [Message.user "hi"] none ⟨401, [], "other body"⟩
      (by simp) rfl).2⟩

/-- C4: a response with status 429 makes the LLM client's `chat_completion`
return `RateLimitExceeded` whose `retry_after` is the `retry-after` header
parsed as a number — `none` when the header is absent or does not parse. -/
theorem c4_status_429_rate_limited (config : LlmConfig)
    (parseJson : String → Option Json) (messages : List Message)
    (options : Option CompletionOptions) (r : HttpResponse)
    (hm : messages ≠ []) (h : r.status = 429) :
    LlmClient.chat_completion config parseJson messages options r
      = Except.error (LlmError.RateLimitExceeded
          ((headerGet r.headers "retry-after").bind (rustParseUnsigned? u64Max)))
    ∧ (headerGet r.headers "retry-after" = none →
        LlmClient.chat_completion config parseJson messages options r
          = Except.error (LlmError.RateLimitExceeded none))
    ∧ (∀ s n, headerGet r.headers "retry-after" = some s →
        rustParseUnsigned? u64Max s = some n →
        LlmClient.chat_completion config parseJson messages options r
          = Except.error (LlmError.RateLimitExceeded (some n)))
    ∧ (∀ s, headerGet r.headers "retry-after" = some s →
        rustParseUnsigned? u64Max s = none →
        LlmClient.chat_completion config parseJson messages options r
          = Except.error (LlmError.RateLimitExceeded none)) := by
  have hne : messages.isEmpty = false := by
    cases messages with
    | nil => exact absurd rfl hm
    | cons a l => rfl
  have hmain : LlmClient.chat_completion config parseJson messages options r
      = Except.error (LlmError.RateLimitExceeded
          ((headerGet r.headers "retry-after").bind (rustParseUnsigned? u64Max))) := by
    simp [LlmClient.chat_completion, LlmClient.chat_completion_request, hne,
      LlmClient.classify_response, h]
  refine ⟨hmain, ?_, ?_, ?_⟩
  · intro habs
    rw [hmain, habs]
    rfl
  · intro s n hs hn
    rw [hmain, hs]
    simp [hn]
  · intro s hs hn
    rw [hmain, hs]
    simp [hn]

/-- C4 witness: a parsing `Retry-After: 30` header (header lookup is
case-insensitive), an unparseable one, and an absent one. -/
theorem c4_status_429_rate_limited_witness :
    ([Message.user "hi"] : List Message) ≠ [] ∧
    (⟨429, [("Retry-After", "30")], ""⟩ : HttpResponse).status = 429 ∧
    LlmClient.chat_completion
      { api_key := "k", base_url := "https://openrouter.ai/api/v1",
        model := "m", timeout_secs := 120, site_url := none, app_name := none }
      (fun _ => none) [Message.user "hi"] none ⟨429, [("Retry-After", "30")], ""⟩
      = Except.error (LlmError.RateLimitExceeded (some 30)) ∧
    LlmClient.chat_completion
      { api_key := "k", base_url := "https://openrouter.ai/api/v1",
        model := "m", timeout_secs := 120, site_url := none, app_name := none }
      (fun _ => none) [Message.user "hi"] none ⟨429, [("retry-after", "soon")], ""⟩
      = Except.error (LlmError.RateLimitExceeded none) ∧
    LlmClient.chat_completion
      { api_key := "k", base_url := "https://openrouter.ai/api/v1",
        model := "m", timeout_secs := 120, site_url := none, app_name := none }
      (fun _ => none) [Message.user "hi"] none ⟨429, [], ""⟩
      = Except.error (LlmError.RateLimitExceeded none) :=
  ⟨by simp, rfl,
    (c4_status_429_rate_limited
      { api_key := "k", base_url := "https://openrouter.ai/api/v1",
        model := "m", timeout_secs := 120, site_url := none, app_name := none }
      (fun _ => none) [Message.user "hi"] none ⟨429, [("Retry-After", "30")], ""⟩
      (by simp) rfl).2.2.1 "30" 30 (by decide) (by decide),
    (c4_status_429_rate_limited
      { api_key := "k", base_url := "https://openrouter.ai/api/v1",
        model := "m", timeout_secs := 120, site_url := none, app_name := none }
      (fun _ => none) [Message.user "hi"] none ⟨429, [("retry-after", "soon")], ""⟩
      (by simp) rfl).2.2.2 "soon" (by decide) (by decide),
    (c4_status_429_rate_limited
      { api_key := "k", base_url := "https://openrouter.ai/api/v1",
        model := "m", timeout_secs := 120, site_url := none, app_name := none }
      (fun _ => none) [Message.user "hi"] none ⟨429, [], ""⟩
      (by simp) rfl).2.1 rfl⟩


/-- C5: on a successful tracker response the pagination metadata is `Some`
exactly when at least one of `X-Total-Pages`/`X-Total-Count` is present and
parses as a number; with `X-Total-Count: 100` alone it is
`Some (total_pages := none, total_count := some 100)`, and with neither
header it is `None`. -/
theorem c5_pagination_metadata (client : TrackerClient)
    (parseJson : String → Option Json) (r : HttpResponse) (j : Json)
    (hs : statusIsSuccess r.status = true) (hp : parseJson r.body = some j) :
    client.handle_response parseJson r = Except.ok (j, extract_pagination r.headers)
    ∧ ((extract_pagination r.headers).isSome = true ↔
        (∃ s, headerGet r.headers "X-Total-Pages" = some s
            ∧ (rustParseUnsigned? u32Max s).isSome = true)
        ∨ (∃ s, headerGet r.headers "X-Total-Count" = some s
            ∧ (rustParseUnsigned? u32Max s).isSome = true))
    ∧ extract_pagination [("X-Total-Count", "100")]
        = some { total_pages := none, total_count := some 100 }
    ∧ extract_pagination [] = none := by
  refine ⟨?_, ?_, by decide, by decide⟩
  · simp [TrackerClient.handle_response, hs, hp]
  · rw [← optionBind_isSome_iff, ← optionBind_isSome_iff]
    unfold extract_pagination
    rcases hb : ((headerGet r.headers "X-Total-Pages").bind (rustParseUnsigned? u32Max)) with _ | n <;>
      rcases hc : ((headerGet r.headers "X-Total-Count").bind (rustParseUnsigned? u32Max)) with _ | k <;>
        simp [hb, hc]

/-- C5 witness: a 200 response carrying `X-Total-Count: 100` only. -/
theorem c5_pagination_metadata_witness :
    statusIsSuccess 200 = true ∧
    (fun (_ : String) => some Json.null) "ignored" = some Json.null ∧
    TrackerClient.handle_response ⟨TrackerConfig.new "tok", none⟩
      (fun _ => some Json.null) ⟨200, [("X-Total-Count", "100")], "ignored"⟩
      = Except.ok (Json.null, some { total_pages := none, total_count := some 100 }) :=
  ⟨by decide, rfl, by
    have h := (c5_pagination_metadata ⟨TrackerConfig.new "tok", none⟩
      (fun _ => some Json.null) ⟨200, [("X-Total-Count", "100")], "ignored"⟩
      Json.null (by decide) rfl).1
    rw [h]
    exact congrArg (fun o => Except.ok (Json.null, o))
      (show extract_pagination [("X-Total-Count", "100")]
          = some { total_pages := none, total_count := some 100 } by decide)⟩

/-- C1 counterexample: status 201 is 2xx, yet the LLM client's
`chat_completion` (which matches only status 200 for success) returns the
generic `ApiError` instead of success — the claimed 2xx → success mapping
does not hold for the LLM client. -/
theorem c1_counterexample_llm_201 :
    statusIsSuccess 201 = true ∧
    LlmClient.chat_completion
      { api_key := "k", base_url := "https://openrouter.ai/api/v1",
        model := "m", timeout_secs := 120, site_url := none, app_name := none }
      (fun _ => some (Json.obj [])) [Message.user "hi"] none ⟨201, [], "created"⟩
      = Except.error (LlmError.ApiError 201 "created") :=
  ⟨by decide, rfl⟩

/-- C1 (amended): the tracker client's `handle_response` maps every 2xx
response whose body decodes as JSON to success together with the optional
pagination metadata extracted from the `X-Total-Pages`/`X-Total-Count`
headers; the LLM client's `chat_completion` returns success exactly for
status 200 (decoding the body as a completion, extracting no pagination
metadata) — every non-200 status, 2xx included, yields an error. -/
theorem c1_two_xx_success_classification (client : TrackerClient)
    (parseJson : String → Option Json) (r : HttpResponse) (j : Json)
    (hs : statusIsSuccess r.status = true) (hp : parseJson r.body = some j)
    (config : LlmConfig) (parseJson2 : String → Option Json)
    (messages : List Message) (options : Option CompletionOptions)
    (r2 : HttpResponse) (c : ChatCompletionResponse)
    (hm : messages ≠ []) (h200 : r2.status = 200)
    (hc : (parseJson2 r2.body).bind ChatCompletionResponse.fromJson = some c) :
    client.handle_response parseJson r = Except.ok (j, extract_pagination r.headers)
    ∧ LlmClient.chat_completion config parseJson2 messages options r2 = Except.ok c
    ∧ ∀ (r3 : HttpResponse), r3.status ≠ 200 →
        ∀ c2, LlmClient.classify_response parseJson2 r3 ≠ Except.ok c2 := by
  have hne : messages.isEmpty = false := by
    cases messages with
    | nil => exact absurd rfl hm
    | cons a l => rfl
  refine ⟨?_, ?_, ?_⟩
  · simp [TrackerClient.handle_response, hs, hp]
  · simp [LlmClient.chat_completion, LlmClient.chat_completion_request, hne,
      LlmClient.classify_response, h200, hc]
  · intro r3 hr3 c2 hcontra
    simp only [LlmClient.classify_response, if_neg hr3] at hcontra
    split at hcontra
    · exact Except.noConfusion hcontra
    · split at hcontra
      · simp at hcontra
      · split at hcontra <;> simp at hcontra

/-- C1 witness: a 204 tracker response with a decodable body, and a 200 LLM
response with a decodable completion body. -/
theorem c1_two_xx_success_classification_witness :
    statusIsSuccess 204 = true ∧
    TrackerClient.handle_response ⟨TrackerConfig.new "tok", none⟩
      (fun _ => some (Json.str "ok")) ⟨204, [], "body"⟩
      = Except.ok (Json.str "ok", none) ∧
    LlmClient.chat_completion
      { api_key := "k", base_url := "https://openrouter.ai/api/v1",
        model := "m", timeout_secs := 120, site_url := none, app_name := none }
      (fun _ => some (Json.obj [("id", Json.str "x"), ("model", Json.str "m"),
        ("choices", Json.arr [Json.obj [("index", Json.num 0),
          ("message", Json.obj [("role", Json.str "assistant"),
            ("content", Json.str "Hello")]),
          ("finish_reason", Json.null)]]),
        ("usage", Json.obj [("prompt_tokens", Json.num 1),
          ("completion_tokens", Json.num 2), ("total_tokens", Json.num 3)]),
        ("created", Json.num 5)]))
      [Message.user "hi"] none ⟨200, [], "resp"⟩
      = Except.ok
          { id := "x", model := "m",
            choices := [{ index := 0,
                          message := { role := Role.Assistant, content := "Hello" },
                          finish_reason := none }],
            usage := { prompt_tokens := 1, completion_tokens := 2, total_tokens := 3 },
            created := 5 } := by
  have h := c1_two_xx_success_classification ⟨TrackerConfig.new "tok", none⟩
    (fun _ => some (Json.str "ok")) ⟨204, [], "body"⟩ (Json.str "ok") (by decide) rfl
    { api_key := "k", base_url := "https://openrouter.ai/api/v1",
      model := "m", timeout_secs := 120, site_url := none, app_name := none }
    (fun _ => some (Json.obj [("id", Json.str "x"), ("model", Json.str "m"),
      ("choices", Json.arr [Json.obj [("index", Json.num 0),
        ("message", Json.obj [("role", Json.str "assistant"),
          ("content", Json.str "Hello")]),
        ("finish_reason", Json.null)]]),
      ("usage", Json.obj [("prompt_tokens", Json.num 1),
        ("completion_tokens", Json.num 2), ("total_tokens", Json.num 3)]),
      ("created", Json.num 5)]))
    [Message.user "hi"] none ⟨200, [], "resp"⟩
    { id := "x", model := "m",
      choices := [{ index := 0,
                    message := { role := Role.Assistant, content := "Hello" },
                    finish_reason := none }],
      usage := { prompt_tokens := 1, completion_tokens := 2, total_tokens := 3 },
      created := 5 }
    (by simp) rfl (by decide)
  exact ⟨by decide, h.1, h.2.1⟩

/-- C3 counterexample: at status 404 the LLM client's `chat_completion`
returns the generic `ApiError` variant — `LlmError` has no not-found
variant — and when the body parses as an error envelope the carried message
is the envelope message, not the response body text verbatim. -/
theorem c3_counterexample_llm_404 :
    LlmClient.chat_completion
      { api_key := "k", base_url := "https://openrouter.ai/api/v1",
        model := "m", timeout_secs := 120, site_url := none, app_name := none }
      (fun _ => some (Json.obj [("error",
        Json.obj [("message", Json.str "No such model")])]))
      [Message.user "hi"] none ⟨404, [], "raw 404 body"⟩
      = Except.error (LlmError.ApiError 404 "No such model")
    ∧ "No such model" ≠ "raw 404 body" :=
  ⟨rfl, by decide⟩

/-- C3 (amended): a 404 response makes the tracker client's
`handle_response` return `NotFound` carrying the response body text
verbatim; the LLM client has no not-found variant — its `chat_completion`
maps 404 to `ApiError` with status 404 and the message taken from the
structured error envelope when the body parses as one, else the raw body
text. -/
theorem c3_status_404_not_found (client : TrackerClient)
    (parseJson : String → Option Json) (r : HttpResponse) (h : r.status = 404)
    (config : LlmConfig) (parseJson2 : String → Option Json)
    (messages : List Message) (options : Option CompletionOptions)
    (r2 : HttpResponse) (hm : messages ≠ []) (h2 : r2.status = 404) :
    client.handle_response parseJson r = Except.error (TrackerError.NotFound r.body)
    ∧ (∀ er, (parseJson2 r2.body).bind ErrorResponse.fromJson = some er →
        LlmClient.chat_completion config parseJson2 messages options r2
          = Except.error (LlmError.ApiError 404 er.error.message))
    ∧ ((parseJson2 r2.body).bind ErrorResponse.fromJson = none →
        LlmClient.chat_completion config parseJson2 messages options r2
          = Except.error (LlmError.ApiError 404 r2.body)) := by
  have hne : messages.isEmpty = false := by
    cases messages with
    | nil => exact absurd rfl hm
    | cons a l => rfl
  refine ⟨?_, ?_, ?_⟩
  · simp [TrackerClient.handle_response, statusIsSuccess, h]
  · intro er her
    simp [LlmClient.chat_completion, LlmClient.chat_completion_request, hne,
      LlmClient.classify_response, h2, her]
  · intro hnone
    simp [LlmClient.chat_completion, LlmClient.chat_completion_request, hne,
      LlmClient.classify_response, h2, hnone]

/-- C3 witness: a tracker 404 whose body is carried verbatim, and an LLM
404 whose body does not parse as an error envelope. -/
theorem c3_status_404_not_found_witness :
    (⟨404, [], "Issue TASK-123 not found"⟩ : HttpResponse).status = 404 ∧
    TrackerClient.handle_response ⟨TrackerConfig.new "tok", none⟩
      (fun _ => some Json.null) ⟨404, [], "Issue TASK-123 not found"⟩
      = Except.error (TrackerError.NotFound "Issue TASK-123 not found") ∧
    LlmClient.chat_completion
      { api_key := "k", base_url := "https://openrouter.ai/api/v1",
        model := "m", timeout_secs := 120, site_url := none, app_name := none }
      (fun _ => none) [Message.user "hi"] none ⟨404, [], "plain missing"⟩
      = Except.error (LlmError.ApiError 404 "plain missing") :=
  ⟨rfl,
    (c3_status_404_not_found ⟨TrackerConfig.new "tok", none⟩ (fun _ => some Json.null)
      ⟨404, [], "Issue TASK-123 not found"⟩ rfl
      { api_key := "k", base_url := "https://openrouter.ai/api/v1",
        model := "m", timeout_secs := 120, site_url := none, app_name := none }
      (fun _ => none) [Message.user "hi"] none ⟨404, [], "plain missing"⟩
      (by simp) rfl).1,
    (c3_status_404_not_found ⟨TrackerConfig.new "tok", none⟩ (fun _ => some Json.null)
      ⟨404, [], "Issue TASK-123 not found"⟩ rfl
      { api_key := "k", base_url := "https://openrouter.ai/api/v1",
        model := "m", timeout_secs := 120, site_url := none, app_name := none }
      (fun _ => none) [Message.user "hi"] none ⟨404, [], "plain missing"⟩
      (by simp) rfl).2.2 rfl⟩

end Multitool
